import Mathlib

/-!
Shallow embedding of the dispute-automation core (eligibility gate, error
classifier, rebooking detector, resolution builder, orchestrator) of the
`super-dispute-automation` repository.  Pure Python functions become Lean
functions; every external call (Smartsheet, Snowflake, the customer-profile
HTTP service) is modelled by passing the call's result in as an explicit
input, with `Except Unit _` standing for "the call raised an exception"
versus "the call returned".  Python `Optional[str]` becomes `Option String`,
and Python truthiness of optional strings is modelled explicitly
(`optStrTruthy`), since the source branches on truthiness, not on `is None`.
-/

namespace DisputeAuto

/-- Character-list prefix test used to implement substring search. -/
def startsWithChars : List Char → List Char → Bool
  | [], _ => true
  | _ :: _, [] => false
  | a :: as, b :: bs => a == b && startsWithChars as bs

/-- Substring search on character lists: does `pat` occur inside the list? -/
def subAux (pat : List Char) : List Char → Bool
  | [] => startsWithChars pat []
  | c :: rest => startsWithChars pat (c :: rest) || subAux pat rest

/-- Python's `pat in hay` substring containment on strings. -/
def strHasSub (hay pat : String) : Bool :=
  subAux pat.data hay.data

/-- Python's `str.upper()` (ASCII, as in the source's data): uppercase every
character.  Implemented by structural recursion over the character list so
that it evaluates by kernel reduction. -/
def pyUpper (s : String) : String :=
  String.mk (s.data.map Char.toUpper)

/-- Python's `str.lower()` (ASCII): lowercase every character. -/
def pyLower (s : String) : String :=
  String.mk (s.data.map Char.toLower)

/-- Helper for `splitWs`: accumulate the current word (reversed) while
walking the character list. -/
def wordsAux : List Char → List Char → List String
  | acc, [] => if acc = [] then [] else [String.mk acc.reverse]
  | acc, c :: cs =>
    if c.isWhitespace then
      if acc = [] then wordsAux [] cs
      else String.mk acc.reverse :: wordsAux [] cs
    else wordsAux (c :: acc) cs

/-- Python's `str.split()` with no argument: split on whitespace runs,
dropping empty pieces. -/
def splitWs (s : String) : List String :=
  wordsAux [] s.data

/-- Python truthiness of an `Optional[str]`: `None` and `""` are falsy. -/
def optStrTruthy : Option String → Bool
  | none => false
  | some s => s ≠ ""

namespace Config

/-- Error patterns scanned for, in order (`Config.ERROR_PATTERNS`). -/
def ERROR_PATTERNS : List String :=
  ["SUPPLIER_CONFIRMATION_ERROR",
   "CONNECTION_ERROR",
   "TIMEOUT_ERROR",
   "PROVIDER_ERROR",
   "BOOKING_FAILED"]

/-- Value of `Config.STATUS_UPDATES['supplier_comments_from']`. -/
def supplier_comments_from : String := "in escalation process"

/-- Value of `Config.STATUS_UPDATES['supplier_comments_to']`. -/
def supplier_comments_to : String := "reviewed by ST technical team"

/-- Value of `Config.STATUS_UPDATES['status_from']`. -/
def status_from : String := "escalation"

/-- Value of `Config.STATUS_UPDATES['status_to']`. -/
def status_to : String := "will not pay"

/-- Value of `Config.STATUS_UPDATES['completion_from']`. -/
def completion_from : String := "need help"

/-- Value of `Config.STATUS_UPDATES['completion_to']`. -/
def completion_to : String := "ready to submit"

end Config

/-- The dict of cell updates built per row.  Modelled as a partial map from
internal column names to values so that frame conditions over arbitrary keys
can be stated. -/
def UpdatesMap : Type := String → Option String

/-- Python dict assignment `m[k] = v`. -/
def setKey (m : UpdatesMap) (k v : String) : UpdatesMap :=
  fun q => if q = k then some v else m q

/-- Python `{}`: the empty dict. -/
def emptyUpdates : UpdatesMap := fun _ => none

/-- The fields of a dispute row that the eligibility gate and the
orchestrator read; built by `get_dispute_rows` with `''` defaults, so each
field is a total `String`. -/
structure RowData where
  client_reference : String
  supplier_comments : String
  status : String
  completion : String
deriving DecidableEq

/-- Embedding of `SmartsheetIntegration.validate_row_eligibility`. -/
def validate_row_eligibility (row : RowData) : Bool × String :=
  let supplier_comments := pyLower row.supplier_comments
  let status := pyLower row.status
  let completion := pyLower row.completion
  if supplier_comments = pyLower Config.supplier_comments_to ∧
     status = pyLower Config.status_to ∧
     completion = pyLower Config.completion_to then
    (false, "Already processed")
  else if supplier_comments ≠ pyLower Config.supplier_comments_from ∨
          status ≠ pyLower Config.status_from ∨
          completion ≠ pyLower Config.completion_from then
    (false, "Not in expected initial state")
  else
    (true, "Eligible for processing")

/-- Embedding of `SmartsheetIntegration.create_status_updates`.  The Python
code branches on the truthiness of `error_type` (so `None` and `""` both take
the generic branch). -/
def create_status_updates (error_type : Option String) (has_logs : Bool) :
    UpdatesMap :=
  let u := setKey emptyUpdates "round_1_supplier_comments" Config.supplier_comments_to
  let u := setKey u "round_1_status" Config.status_to
  let u := setKey u "round_1_completion" Config.completion_to
  let notes :=
    if has_logs then
      if optStrTruthy error_type then
        "The booking was not confirmed by the supplier, please find the logs attached. " ++
        "Our request log was met with an " ++ pyUpper (error_type.getD "") ++ " ERROR."
      else
        "The booking was not confirmed by the supplier, please find the logs attached. " ++
        "Our request log shows a provider error."
    else
      "Technical review completed. No logs available for this booking."
  setKey u "round_1_notes" notes

/-- One row of the DataFrame produced by the booking-logs query: only the
four text columns that `_detect_error_type` scans are modelled (the query's
remaining columns are never read by the classifier). -/
structure LogRow where
  reason : String
  detailed_status : String
  response : String
  request : String
deriving DecidableEq

/-- One text column of the DataFrame, upper-cased row by row
(`df[column].astype(str).str.upper()`). -/
def colVals (df : List LogRow) (f : LogRow → String) : List String :=
  df.map (fun r => pyUpper (f r))

/-- The columns `_detect_error_type` scans, in its scan order
`['reason', 'detailed_status', 'response', 'request']`; all four are always
present in the query result. -/
def textCols (df : List LogRow) : List (List String) :=
  [colVals df LogRow.reason, colVals df LogRow.detailed_status,
   colVals df LogRow.response, colVals df LogRow.request]

/-- Inner loop of the heuristic extraction: first word at index `i > 0` with
`'ERROR' in word` yields `words[i-1] ++ "_ERROR"`; `prev` carries
`words[i-1]`. -/
def extractAdj : String → List String → Option String
  | _, [] => none
  | prev, w :: ws =>
    if strHasSub w "ERROR" then some (prev ++ "_ERROR") else extractAdj w ws

/-- Heuristic extraction from one split text: Python skips index `0`
(condition `i > 0`), so the scan starts from the second word. -/
def extractFromWords : List String → Option String
  | [] => none
  | w0 :: ws => extractAdj w0 ws

/-- The generic-`ERROR` fallback loop of `_detect_error_type`: walk the
column's rows in order; in the first row whose text contains `ERROR` and has
an extractable adjacent word, return `<WORD>_ERROR`; if no row yields an
extraction, return `GENERAL_ERROR`. -/
def extractHeuristic : List String → String
  | [] => "GENERAL_ERROR"
  | t :: ts =>
    if strHasSub t "ERROR" then
      match extractFromWords (splitWs t) with
      | some r => r
      | none => extractHeuristic ts
    else extractHeuristic ts

/-- Scan of one column in `_detect_error_type`: the fixed patterns are tried
in `ERROR_PATTERNS` order against every row first; otherwise, if some row
contains the token `ERROR`, the heuristic fallback runs; otherwise the column
yields nothing. -/
def scanColumn (vals : List String) : Option String :=
  match Config.ERROR_PATTERNS.find? (fun p => vals.any (fun t => strHasSub t p)) with
  | some p => some p
  | none =>
    if vals.any (fun t => strHasSub t "ERROR") then some (extractHeuristic vals)
    else none

/-- First column (in scan order) that yields a classification wins. -/
def firstScan : List (List String) → Option String
  | [] => none
  | c :: cs =>
    match scanColumn c with
    | some r => some r
    | none => firstScan cs

/-- Embedding of `SnowflakeIntegration._detect_error_type`. -/
def detect_error_type (df : List LogRow) : Option String :=
  if df = [] then none else firstScan (textCols df)

/-- Embedding of `SnowflakeIntegration.get_booking_logs`.  The query result
is an input: `Except.error ()` models the query raising, `Except.ok rows`
models `cursor.fetchall()` returning `rows`.  An exception or an empty result
both yield `(None, None)`. -/
def get_booking_logs : Except Unit (List LogRow) → Option (List LogRow) × Option String
  | Except.error _ => (none, none)
  | Except.ok [] => (none, none)
  | Except.ok rows => (some rows, detect_error_type rows)

/-- One `booking_patch_events` row as read by the rebooking query: only the
`reason` column decides the event type. -/
structure BookingEvent where
  reason : String
deriving DecidableEq

/-- The query's `case when reason ilike '%cancel%' then 'cancel' else 'book'
end`: `ilike` is case-insensitive containment. -/
def isCancelEvent (e : BookingEvent) : Bool :=
  strHasSub (pyUpper e.reason) "CANCEL"

/-- The aggregate row computed by the rebooking query plus the flag added in
Python; the timestamp extremes are not modelled (no claim reads them). -/
structure RebookingInfo where
  book_count : Nat
  cancel_count : Nat
  is_rebooking : Bool
deriving DecidableEq

/-- The rebooking aggregate for a given event history, including the Python
`is_rebooking` derivation in `check_rebooking_scenario`. -/
def rebookingOf (evs : List BookingEvent) : RebookingInfo :=
  let cancel_count := (evs.filter isCancelEvent).length
  let book_count := (evs.filter (fun e => ¬ isCancelEvent e)).length
  { book_count := book_count
    cancel_count := cancel_count
    is_rebooking :=
      book_count > 1 || (cancel_count > 0 && book_count > 0) }

/-- Embedding of `SnowflakeIntegration.check_rebooking_scenario`: the event
history for the client reference is the query input; on a query exception the
method returns `None`, otherwise the aggregate row always exists. -/
def check_rebooking_scenario : Except Unit (List BookingEvent) → Option RebookingInfo
  | Except.error _ => none
  | Except.ok evs => some (rebookingOf evs)

/-- The single cancellation row returned by `get_cancellation_info`; only
`supplier_order_id` is read (a nullable column, read with default `'N/A'`). -/
structure CancRec where
  supplier_order_id : Option String
deriving DecidableEq

/-- Embedding of `DisputeAutomationEngine._handle_rebooking_scenario`.  The
result of `snowflake.get_cancellation_info(client_reference)` is an input
(`none` models both "no cancellation row" and a query error, which the
callee converts to `None`). -/
def handle_rebooking_scenario (updates : UpdatesMap) (rebooking_info : RebookingInfo)
    (cancellation_info : Option CancRec) (client_reference : String) : UpdatesMap :=
  if rebooking_info.cancel_count > 0 then
    match cancellation_info with
    | some ci =>
      let old_booking_id := ci.supplier_order_id.getD "N/A"
      setKey updates "round_1_notes"
        ("We have attempted to cancel this booking before the last day for a full refund - " ++
         "please find the attachments. We then immediately booked " ++ client_reference ++
         " after canceling " ++ old_booking_id ++ ".")
    | none => updates
  else updates

/-- One entry of a booking's `errors` list in the profile service's
response. -/
structure BookingError where
  message : String
  code : String
deriving DecidableEq

/-- The booking payload fields that `validate_booking_status` reads. -/
structure BookingData where
  status : String
  errors : List BookingError
deriving DecidableEq

/-- One cancellation-log entry from the profile service. -/
structure CancLog where
  message : String
deriving DecidableEq

/-- Embedding of `CustomerProfileIntegration.get_booking_details`: the HTTP
outcome is an input — `Except.error ()` models a network/auth exception,
`Except.ok (code, body)` a response with status `code` whose JSON `data`
field is `body` (absent when the response had no `data`).  Only a 200 with a
`data` payload yields a booking; every other outcome yields `None`. -/
def get_booking_details : Except Unit (Nat × Option BookingData) → Option BookingData
  | Except.error _ => none
  | Except.ok (code, body) => if code = 200 then body else none

/-- Embedding of `CustomerProfileIntegration.get_cancellation_logs`: 200 with
a `logs` field yields the logs, 200 without `logs` or a 404 yields `[]`, any
other status or an exception yields `None`. -/
def get_cancellation_logs : Except Unit (Nat × Option (List CancLog)) → Option (List CancLog)
  | Except.error _ => none
  | Except.ok (code, body) =>
    if code = 200 then
      match body with
      | some logs => some logs
      | none => some []
    else if code = 404 then some []
    else none

/-- One iteration of the `for error in booking_errors` loop in
`validate_booking_status`: the fixed-pattern scan may overwrite a previously
detected error (the loop does not break), while the composite keyword checks
run only while nothing has been detected (`if not detected_error`). -/
def stepError (acc : Option String) (e : BookingError) : Option String :=
  let msg := pyUpper e.message
  let code := pyUpper e.code
  let acc1 :=
    match Config.ERROR_PATTERNS.find? (fun p => strHasSub msg p || strHasSub code p) with
    | some p => some p
    | none => acc
  match acc1 with
  | some d => some d
  | none =>
    if strHasSub msg "SUPPLIER" && strHasSub msg "CONFIRMATION" then
      some "SUPPLIER_CONFIRMATION_ERROR"
    else if strHasSub msg "CONNECTION" then some "CONNECTION_ERROR"
    else if strHasSub msg "TIMEOUT" then some "TIMEOUT_ERROR"
    else if strHasSub msg "PROVIDER" then some "PROVIDER_ERROR"
    else none

/-- One iteration of the `for log in cancellation_logs` loop in
`validate_booking_status`: a fixed pattern in the log message overwrites the
accumulator. -/
def stepCanc (acc : Option String) (l : CancLog) : Option String :=
  match Config.ERROR_PATTERNS.find? (fun p => strHasSub (pyUpper l.message) p) with
  | some p => some p
  | none => acc

/-- The check `booking_status in ['FAILED', 'CANCELLED', 'ERROR']` of
`validate_booking_status` (on the upper-cased status). -/
def statusBad (bd : BookingData) : Bool :=
  pyUpper bd.status = "FAILED" || pyUpper bd.status = "CANCELLED" || pyUpper bd.status = "ERROR"

/-- The value of `detected_error` after the booking-status check of
`validate_booking_status`. -/
def statusError (bd : BookingData) : Option String :=
  if statusBad bd then some (pyUpper bd.status ++ "_STATUS") else none

/-- The value of `detected_error` after the `for error in booking_errors`
loop of `validate_booking_status` (an empty list leaves it unchanged, which
also covers the `if booking_errors:` guard). -/
def detectedAfterErrors (bd : BookingData) : Option String :=
  bd.errors.foldl stepError (statusError bd)

/-- The value of `detected_error` after the cancellation-logs loop of
`validate_booking_status`; an empty or absent log list is falsy, so the whole
`if cancellation_logs:` block is skipped. -/
def detectedFinal (bd : BookingData)
    (clResp : Except Unit (Nat × Option (List CancLog))) : Option String :=
  match get_cancellation_logs clResp with
  | some logs =>
    if logs = [] then detectedAfterErrors bd else logs.foldl stepCanc (detectedAfterErrors bd)
  | none => detectedAfterErrors bd

/-- Embedding of `CustomerProfileIntegration.validate_booking_status`.  The
two HTTP outcomes (booking search, cancellation logs) are inputs.  Returns
`(is_valid, detected_error, booking_data)`. -/
def validate_booking_status (bResp : Except Unit (Nat × Option BookingData))
    (clResp : Except Unit (Nat × Option (List CancLog))) :
    Bool × Option String × Option BookingData :=
  match get_booking_details bResp with
  | none => (false, some "BOOKING_NOT_FOUND", none)
  | some bd =>
    ((detectedFinal bd clResp).isNone && !statusBad bd, detectedFinal bd clResp, some bd)

/-- The fields of the dict built by `get_comprehensive_booking_info` that the
classifier reads (`error_messages`, `related_bookings` and `timestamp` are
pass-through payload never consulted by any decision). -/
structure CPInfo where
  is_valid : Bool
  detected_error_type : Option String
  booking_data : Option BookingData
deriving DecidableEq

/-- Embedding of `CustomerProfileIntegration.get_comprehensive_booking_info`:
every callee catches its own exceptions, so the method always returns a
dict built from `validate_booking_status`. -/
def get_comprehensive_booking_info (bResp : Except Unit (Nat × Option BookingData))
    (clResp : Except Unit (Nat × Option (List CancLog))) : CPInfo :=
  let r := validate_booking_status bResp clResp
  { is_valid := r.1, detected_error_type := r.2.1, booking_data := r.2.2 }

/-- Python truthiness of `cp_info` (a dict): `None` is falsy, the dict built
by `get_comprehensive_booking_info` is never empty, hence truthy. -/
def cpTruthy : Option CPInfo → Bool
  | none => false
  | some _ => true

/-- Lookup `cp_info.get('detected_error_type')` through the option. -/
def cpDetected : Option CPInfo → Option String
  | none => none
  | some c => c.detected_error_type

/-- Lookup `cp_info.get('is_valid')` through the option (missing key is
falsy; the dict always carries the key in the source). -/
def cpIsValid : Option CPInfo → Bool
  | none => false
  | some c => c.is_valid

/-- Embedding of `DisputeAutomationEngine._determine_error_type`: the
sequential `if`/`return` chain, with Python truthiness on the optional
strings. -/
def determine_error_type (cp_info : Option CPInfo) (snowflake_error : Option String)
    (logs_df : Option (List LogRow)) : Option String :=
  if optStrTruthy snowflake_error then snowflake_error
  else if cpTruthy cp_info && optStrTruthy (cpDetected cp_info) then cpDetected cp_info
  else if cpTruthy cp_info && !cpIsValid cp_info then some "BOOKING_INVALID"
  else
    match logs_df with
    | some df => if df = [] then none else some "PROVIDER_ERROR"
    | none => none

/-- Everything the external world hands one iteration of the row loop: the
row itself plus the outcome of every collaborator call made while processing
it.  `raisesUnexpected` models any exception thrown inside the row pipeline
(all collaborator methods catch their own, so in the source this can only
come from plumbing such as the logger); it is caught by the row-level
`except`. -/
structure RowEnv where
  row : RowData
  cpB : Except Unit (Nat × Option BookingData)
  cpC : Except Unit (Nat × Option (List CancLog))
  sfLogs : Except Unit (List LogRow)
  sfRebook : Except Unit (List BookingEvent)
  sfCanc : Option CancRec
  saveLogsOk : Bool
  updateOk : Bool
  raisesUnexpected : Bool

/-- Step 4 of `_process_dispute_row`: the classification computed for the
row from the two evidence sources. -/
def rowClassification (env : RowEnv) : Option String :=
  let cp_info := get_comprehensive_booking_info env.cpB env.cpC
  let r := get_booking_logs env.sfLogs
  determine_error_type (some cp_info) r.2 r.1

/-- Step 5 of `_process_dispute_row`: `save_logs_to_file` runs only when the
DataFrame exists and is non-empty, and returns `None` when saving fails. -/
def rowLogPath (env : RowEnv) : Option String :=
  match (get_booking_logs env.sfLogs).1 with
  | some df =>
    if df = [] then none
    else if env.saveLogsOk then some ("logs/booking_logs_" ++ env.row.client_reference ++ ".csv")
    else none
  | none => none

/-- Steps 6-7 of `_process_dispute_row`: the update dict written back,
including the rebooking override when `check_rebooking_scenario` reports a
truthy `is_rebooking`. -/
def rowUpdates (env : RowEnv) : UpdatesMap :=
  let has_logs := (rowLogPath env).isSome
  let updates := create_status_updates (rowClassification env) has_logs
  match check_rebooking_scenario env.sfRebook with
  | some info =>
    if info.is_rebooking then
      handle_rebooking_scenario updates info env.sfCanc env.row.client_reference
    else updates
  | none => updates

/-- Outcome of one row, as counted by the orchestrator's statistics. -/
inductive Outcome where
  | skippedO
  | updatedO
  | erroredO
deriving DecidableEq

/-- Embedding of `DisputeAutomationEngine._process_dispute_row`'s control
flow: an ineligible row is skipped; any exception inside the pipeline is
caught and counted as an error; otherwise the write-back's boolean result
decides updated versus errored.  (The write-back payload is `rowUpdates env`
with attachment `rowLogPath env`.) -/
def process_dispute_row (env : RowEnv) : Outcome :=
  if env.raisesUnexpected then Outcome.erroredO
  else
    let r := validate_row_eligibility env.row
    if r.1 = false then Outcome.skippedO
    else if env.updateOk then Outcome.updatedO
    else Outcome.erroredO

/-- The orchestrator's `processing_stats` dict. -/
structure Stats where
  total_rows : Nat
  processed : Nat
  errors : Nat
  skipped : Nat
  updated : Nat
deriving DecidableEq

/-- The statistics increments of `_process_dispute_row` (one per outcome;
`processed` is bumped exactly together with `updated`). -/
def stepStats (s : Stats) (o : Outcome) : Stats :=
  match o with
  | Outcome.skippedO => { s with skipped := s.skipped + 1 }
  | Outcome.updatedO => { s with updated := s.updated + 1, processed := s.processed + 1 }
  | Outcome.erroredO => { s with errors := s.errors + 1 }

/-- Embedding of `DisputeAutomationEngine.run_automation`'s row loop:
`total_rows` is set to the queue length up front, then every row is processed
exactly once and its outcome counted. -/
def run_automation (envs : List RowEnv) : Stats :=
  envs.foldl (fun s e => stepStats s (process_dispute_row e))
    { total_rows := envs.length, processed := 0, errors := 0, skipped := 0, updated := 0 }

/-- Some fixed pattern of `ERROR_PATTERNS` occurs in some entry of the
(upper-cased) column. -/
def hasFixedPattern (vals : List String) : Bool :=
  Config.ERROR_PATTERNS.any (fun p => vals.any (fun t => strHasSub t p))

/-- The literal token `ERROR` occurs in some entry of the (upper-cased)
column — the trigger of the heuristic fallback. -/
def hasErrTok (vals : List String) : Bool :=
  vals.any (fun t => strHasSub t "ERROR")

/-- Case-insensitive match of a row's three workflow fields against the
"already processed" triple (the spec's processed state). -/
def isProcessedTriple (row : RowData) : Prop :=
  pyLower row.supplier_comments = pyLower Config.supplier_comments_to ∧
  pyLower row.status = pyLower Config.status_to ∧
  pyLower row.completion = pyLower Config.completion_to

/-- Case-insensitive match of a row's three workflow fields against the
"expected initial state" triple. -/
def isInitialTriple (row : RowData) : Prop :=
  pyLower row.supplier_comments = pyLower Config.supplier_comments_from ∧
  pyLower row.status = pyLower Config.status_from ∧
  pyLower row.completion = pyLower Config.completion_from

instance (row : RowData) : Decidable (isProcessedTriple row) := by
  unfold isProcessedTriple; infer_instance

instance (row : RowData) : Decidable (isInitialTriple row) := by
  unfold isInitialTriple; infer_instance

end DisputeAuto

namespace DisputeAuto

/-! Helper lemmas about the orchestrator's statistics fold. -/

/-- The per-outcome increment never touches `total_rows`. -/
theorem stepStats_total (s : Stats) (o : Outcome) :
    (stepStats s o).total_rows = s.total_rows := by
  cases o <;> rfl

/-- Each outcome adds exactly one to `skipped + updated + errors`. -/
theorem stepStats_sum (s : Stats) (o : Outcome) :
    (stepStats s o).skipped + (stepStats s o).updated + (stepStats s o).errors =
      s.skipped + s.updated + s.errors + 1 := by
  cases o <;> simp [stepStats] <;> omega

/-- The per-outcome increment preserves `processed = updated`. -/
theorem stepStats_pu (s : Stats) (o : Outcome) (h : s.processed = s.updated) :
    (stepStats s o).processed = (stepStats s o).updated := by
  cases o <;> simp [stepStats, h]

/-- The row loop never touches `total_rows`. -/
theorem foldl_stats_total (envs : List RowEnv) (s : Stats) :
    (envs.foldl (fun s e => stepStats s (process_dispute_row e)) s).total_rows =
      s.total_rows := by
  induction envs generalizing s with
  | nil => rfl
  | cons e es ih => rw [List.foldl_cons, ih, stepStats_total]

/-- The row loop adds exactly the number of rows to
`skipped + updated + errors`. -/
theorem foldl_stats_sum (envs : List RowEnv) (s : Stats) :
    (envs.foldl (fun s e => stepStats s (process_dispute_row e)) s).skipped +
    (envs.foldl (fun s e => stepStats s (process_dispute_row e)) s).updated +
    (envs.foldl (fun s e => stepStats s (process_dispute_row e)) s).errors =
      s.skipped + s.updated + s.errors + envs.length := by
  induction envs generalizing s with
  | nil => simp
  | cons e es ih =>
    rw [List.foldl_cons, ih, stepStats_sum]
    simp [List.length_cons]
    omega

/-- The row loop preserves `processed = updated`. -/
theorem foldl_stats_pu (envs : List RowEnv) (s : Stats) (h : s.processed = s.updated) :
    (envs.foldl (fun s e => stepStats s (process_dispute_row e)) s).processed =
      (envs.foldl (fun s e => stepStats s (process_dispute_row e)) s).updated := by
  induction envs generalizing s with
  | nil => exact h
  | cons e es ih => exact ih _ (stepStats_pu _ _ h)

/-- C1: `validate_row_eligibility` lower-cases the three workflow fields and
returns `(False, "Already processed")` when all three match the processed
triple, `(False, "Not in expected initial state")` when they do not all match
the initial triple, and `(True, "Eligible for processing")` otherwise.  The
embedding is a total pure function, so the operation never raises and has no
side effects. -/
theorem C1_eligibility_three_state (row : RowData) :
    (isProcessedTriple row →
      validate_row_eligibility row = (false, "Already processed")) ∧
    (¬ isProcessedTriple row → ¬ isInitialTriple row →
      validate_row_eligibility row = (false, "Not in expected initial state")) ∧
    (¬ isProcessedTriple row → isInitialTriple row →
      validate_row_eligibility row = (true, "Eligible for processing")) := by
  simp only [validate_row_eligibility]
  split_ifs with h1 h2 <;>
    refine ⟨fun hp => ?_, fun hnp hni => ?_, fun hnp hi => ?_⟩ <;>
      simp_all [isProcessedTriple, isInitialTriple]

/-- Witness for C1: the three branches at concrete rows. -/
theorem C1_eligibility_three_state_witness :
    validate_row_eligibility
        ⟨"CR1", "Reviewed by ST Technical Team", "Will Not Pay", "Ready to Submit"⟩ =
      (false, "Already processed") ∧
    validate_row_eligibility ⟨"CR1", "some comment", "open", "done"⟩ =
      (false, "Not in expected initial state") ∧
    validate_row_eligibility ⟨"CR1", "In Escalation Process", "Escalation", "Need Help"⟩ =
      (true, "Eligible for processing") :=
  ⟨(C1_eligibility_three_state _).1 (by decide),
   (C1_eligibility_three_state _).2.1 (by decide) (by decide),
   (C1_eligibility_three_state _).2.2 (by decide) (by decide)⟩

/-- Counterexample for C9 as stated: a row whose fields equal the processed
triple does not match the initial triple, yet the returned reason is
"Already processed", not "Not in expected initial state". -/
theorem C9_counterexample :
    ¬ isInitialTriple
        ⟨"CR2", "reviewed by ST technical team", "will not pay", "ready to submit"⟩ ∧
    validate_row_eligibility
        ⟨"CR2", "reviewed by ST technical team", "will not pay", "ready to submit"⟩ =
      (false, "Already processed") ∧
    ("Already processed" : String) ≠ "Not in expected initial state" := by
  refine ⟨by decide, by decide, by decide⟩

/-- C9 (amended): for every dispute row whose three workflow fields do not
all equal the expected-initial-state triple and also do not all equal the
already-processed triple, `validate_row_eligibility` returns `False` with
reason "Not in expected initial state". -/
theorem C9_not_initial_reason (row : RowData)
    (hni : ¬ isInitialTriple row) (hnp : ¬ isProcessedTriple row) :
    validate_row_eligibility row = (false, "Not in expected initial state") := by
  simp only [validate_row_eligibility]
  split_ifs with h1 h2
  · exact absurd h1 (by simpa [isProcessedTriple] using hnp)
  · rfl
  · exact absurd (by simpa [isInitialTriple] using h2) (by simpa [isInitialTriple] using hni)

/-- Witness for C9 (amended). -/
theorem C9_not_initial_reason_witness :
    validate_row_eligibility ⟨"CR3", "pending", "new", "todo"⟩ =
      (false, "Not in expected initial state") :=
  C9_not_initial_reason _ (by decide) (by decide)

/-- C7: `create_status_updates` always writes the canonical processed triple
into the three workflow fields, whatever the classification; only the notes
text depends on the inputs: with logs and a (truthy) classification it cites
"<CLASSIFICATION> ERROR" upper-cased, with logs and no classification it is
the generic provider-error message, and without logs it is the
"No logs available" message. -/
theorem C7_resolution_builder (error_type : Option String) (has_logs : Bool) :
    create_status_updates error_type has_logs "round_1_supplier_comments" =
      some "reviewed by ST technical team" ∧
    create_status_updates error_type has_logs "round_1_status" = some "will not pay" ∧
    create_status_updates error_type has_logs "round_1_completion" = some "ready to submit" ∧
    (∀ s, error_type = some s → s ≠ "" → has_logs = true →
      create_status_updates error_type has_logs "round_1_notes" =
        some ("The booking was not confirmed by the supplier, please find the logs attached. " ++
              "Our request log was met with an " ++ pyUpper s ++ " ERROR.")) ∧
    (optStrTruthy error_type = false → has_logs = true →
      create_status_updates error_type has_logs "round_1_notes" =
        some ("The booking was not confirmed by the supplier, please find the logs attached. " ++
              "Our request log shows a provider error.")) ∧
    (has_logs = false →
      create_status_updates error_type has_logs "round_1_notes" =
        some "Technical review completed. No logs available for this booking.") := by
  refine ⟨?_, ?_, ?_, ?_, ?_, ?_⟩
  · simp [create_status_updates, setKey, Config.supplier_comments_to]
  · simp [create_status_updates, setKey, Config.status_to]
  · simp [create_status_updates, setKey, Config.completion_to]
  · rintro s rfl hs rfl
    simp [create_status_updates, setKey, optStrTruthy, hs]
  · rintro ht rfl
    simp [create_status_updates, setKey, ht]
  · rintro rfl
    simp [create_status_updates, setKey]

/-- Witness for C7: all three notes branches at concrete inputs. -/
theorem C7_resolution_builder_witness :
    create_status_updates (some "connection") true "round_1_notes" =
      some ("The booking was not confirmed by the supplier, please find the logs attached. " ++
            "Our request log was met with an " ++ pyUpper "connection" ++ " ERROR.") ∧
    create_status_updates none true "round_1_notes" =
      some ("The booking was not confirmed by the supplier, please find the logs attached. " ++
            "Our request log shows a provider error.") ∧
    create_status_updates (some "TIMEOUT_ERROR") false "round_1_notes" =
      some "Technical review completed. No logs available for this booking." :=
  ⟨(C7_resolution_builder (some "connection") true).2.2.2.1 "connection" rfl (by decide) rfl,
   (C7_resolution_builder none true).2.2.2.2.1 (by decide) rfl,
   (C7_resolution_builder (some "TIMEOUT_ERROR") false).2.2.2.2.2 rfl⟩

/-- C10: `_handle_rebooking_scenario` changes at most the `round_1_notes`
key of the updates mapping; with a zero cancel count, or when no cancellation
record was found, the mapping is returned entirely unchanged. -/
theorem C10_rebooking_frame (updates : UpdatesMap) (info : RebookingInfo)
    (canc : Option CancRec) (cr : String) :
    (∀ k, k ≠ "round_1_notes" →
      handle_rebooking_scenario updates info canc cr k = updates k) ∧
    (info.cancel_count = 0 →
      ∀ k, handle_rebooking_scenario updates info canc cr k = updates k) ∧
    (canc = none →
      ∀ k, handle_rebooking_scenario updates info canc cr k = updates k) := by
  refine ⟨fun k hk => ?_, fun h0 k => ?_, fun hn k => ?_⟩
  · unfold handle_rebooking_scenario
    split_ifs with h
    · cases canc with
      | none => rfl
      | some ci => simp [setKey, hk]
    · rfl
  · unfold handle_rebooking_scenario
    rw [if_neg (by omega)]
  · subst hn
    unfold handle_rebooking_scenario
    split_ifs <;> rfl

/-- Witness for C10: frame facts at a concrete map, rebooking info, and
cancellation record. -/
theorem C10_rebooking_frame_witness :
    handle_rebooking_scenario (create_status_updates none false) ⟨2, 1, true⟩
        (some ⟨some "SO-77"⟩) "CR4" "round_1_status" =
      create_status_updates none false "round_1_status" ∧
    handle_rebooking_scenario (create_status_updates none false) ⟨1, 0, false⟩
        (some ⟨some "SO-77"⟩) "CR4" "round_1_notes" =
      create_status_updates none false "round_1_notes" ∧
    handle_rebooking_scenario (create_status_updates none false) ⟨2, 1, true⟩
        none "CR4" "round_1_notes" =
      create_status_updates none false "round_1_notes" :=
  ⟨(C10_rebooking_frame _ _ _ _).1 "round_1_status" (by decide),
   (C10_rebooking_frame _ _ _ _).2.1 rfl "round_1_notes",
   (C10_rebooking_frame _ _ _ _).2.2 rfl "round_1_notes"⟩

/-- C6: `check_rebooking_scenario` reports `is_rebooking` exactly when more
than one book event exists, or at least one cancel and at least one book
event exist (an event is a cancel iff its reason contains "cancel"
case-insensitively); concretely, a history with two book events and one
cancel event yields `is_rebooking = true` and `cancel_count = 1`. -/
theorem C6_rebooking_invariant :
    (∀ evs : List BookingEvent,
      (rebookingOf evs).is_rebooking = true ↔
        ((rebookingOf evs).book_count > 1 ∨
         ((rebookingOf evs).cancel_count > 0 ∧ (rebookingOf evs).book_count > 0))) ∧
    check_rebooking_scenario (Except.ok
        [⟨"booking confirmed"⟩, ⟨"Customer CANCELLATION requested"⟩, ⟨"rebooked with supplier"⟩]) =
      some { book_count := 2, cancel_count := 1, is_rebooking := true } := by
  constructor
  · intro evs
    simp [rebookingOf, Bool.or_eq_true, Bool.and_eq_true, decide_eq_true_eq]
  · decide

/-- C4: over any list of dispute rows, the orchestrator attempts every row
exactly once and each row contributes exactly one outcome, so the final
statistics satisfy `skipped + updated + errors = total_rows = |rows|` and
`processed = updated`; a row whose pipeline raises is counted as an error,
never aborting the fold. -/
theorem C4_run_statistics :
    (∀ envs : List RowEnv,
      (run_automation envs).total_rows = envs.length ∧
      (run_automation envs).skipped + (run_automation envs).updated +
          (run_automation envs).errors = (run_automation envs).total_rows ∧
      (run_automation envs).processed = (run_automation envs).updated) ∧
    (∀ env : RowEnv,
      process_dispute_row { env with raisesUnexpected := true } = Outcome.erroredO) := by
  constructor
  · intro envs
    refine ⟨foldl_stats_total envs _, ?_, foldl_stats_pu envs _ rfl⟩
    rw [run_automation, foldl_stats_sum, foldl_stats_total]
    simp
  · intro env
    rfl

/-! Helper lemmas about the log classifier. -/

/-- Every fixed error pattern is a non-empty string. -/
theorem patterns_ne_empty : ∀ p ∈ Config.ERROR_PATTERNS, p ≠ "" := by decide

/-- The adjacent-word extraction only produces strings ending in `_ERROR`,
hence never the empty string. -/
theorem extractAdj_ne_empty (prev : String) (ws : List String) (s : String)
    (h : extractAdj prev ws = some s) : s ≠ "" := by
  induction ws generalizing prev with
  | nil => simp [extractAdj] at h
  | cons w ws ih =>
    rw [extractAdj] at h
    split_ifs at h with hw
    · cases h
      intro he
      have := congrArg String.data he
      simp [String.data_append] at this
    · exact ih _ h

/-- Special case of `extractAdj_ne_empty` for a whole word list. -/
theorem extractFromWords_ne_empty (ws : List String) (s : String)
    (h : extractFromWords ws = some s) : s ≠ "" := by
  cases ws with
  | nil => exact absurd h (by simp [extractFromWords])
  | cons w0 ws => exact extractAdj_ne_empty w0 ws s h

/-- The heuristic fallback never produces the empty string. -/
theorem extractHeuristic_ne_empty (ts : List String) : extractHeuristic ts ≠ "" := by
  induction ts with
  | nil => decide
  | cons t ts ih =>
    rw [extractHeuristic]
    split_ifs with ht
    · cases he : extractFromWords (splitWs t) with
      | none => simpa [he] using ih
      | some r =>
        simp only [he]
        exact extractFromWords_ne_empty _ _ he
    · exact ih

/-- A classification produced by one column scan is never empty. -/
theorem scanColumn_ne_empty (vals : List String) (s : String)
    (h : scanColumn vals = some s) : s ≠ "" := by
  unfold scanColumn at h
  cases hf : Config.ERROR_PATTERNS.find? (fun p => vals.any (fun t => strHasSub t p)) with
  | some p =>
    simp only [hf] at h
    cases h
    exact patterns_ne_empty _ (List.mem_of_find?_eq_some hf)
  | none =>
    simp only [hf] at h
    split_ifs at h with he
    cases h
    exact extractHeuristic_ne_empty vals

/-- A result of the column chain comes from some column scan. -/
theorem firstScan_some (cols : List (List String)) (s : String)
    (h : firstScan cols = some s) : ∃ c ∈ cols, scanColumn c = some s := by
  induction cols with
  | nil => simp [firstScan] at h
  | cons c cs ih =>
    rw [firstScan] at h
    cases hc : scanColumn c with
    | some r =>
      simp only [hc] at h
      cases h
      exact ⟨c, List.mem_cons_self c cs, hc⟩
    | none =>
      simp only [hc] at h
      obtain ⟨c', hm, hs⟩ := ih h
      exact ⟨c', List.mem_cons_of_mem _ hm, hs⟩

/-- The log classifier never produces the empty string. -/
theorem detect_error_type_ne_empty (df : List LogRow) (s : String)
    (h : detect_error_type df = some s) : s ≠ "" := by
  unfold detect_error_type at h
  by_cases hd : df = []
  · rw [if_pos hd] at h
    simp at h
  · rw [if_neg hd] at h
    obtain ⟨c, _, hc⟩ := firstScan_some _ _ h
    exact scanColumn_ne_empty _ _ hc

/-- A column containing a fixed pattern scans to a fixed pattern. -/
theorem scanColumn_of_fixed (vals : List String) (h : hasFixedPattern vals = true) :
    ∃ q ∈ Config.ERROR_PATTERNS, scanColumn vals = some q := by
  have hsome : (Config.ERROR_PATTERNS.find? (fun p => vals.any (fun t => strHasSub t p))).isSome := by
    rw [List.find?_isSome]
    simpa [hasFixedPattern, List.any_eq_true] using h
  obtain ⟨q, hq⟩ := Option.isSome_iff_exists.mp hsome
  refine ⟨q, List.mem_of_find?_eq_some hq, ?_⟩
  unfold scanColumn
  rw [hq]

/-- A column containing neither a fixed pattern nor the token `ERROR` scans
to nothing. -/
theorem scanColumn_of_clean (vals : List String) (hf : hasFixedPattern vals = false)
    (he : hasErrTok vals = false) : scanColumn vals = none := by
  have hnone : Config.ERROR_PATTERNS.find? (fun p => vals.any (fun t => strHasSub t p)) = none := by
    rw [List.find?_eq_none]
    intro p hp
    simp only [hasFixedPattern] at hf
    have h1 := List.any_eq_false.mp hf p hp
    simp [h1]
  have he1 : vals.any (fun t => strHasSub t "ERROR") = false := by
    simpa [hasErrTok] using he
  unfold scanColumn
  rw [hnone]
  simp [he1]

/-- If the first column (in scan order) carrying any signal carries a fixed
pattern, the chain returns a fixed pattern. -/
theorem firstScan_fixed (cols : List (List String)) (j : Nat) (colJ : List String)
    (hj : cols.get? j = some colJ) (hfix : hasFixedPattern colJ = true)
    (hclean : ∀ i, i < j → ∀ c, cols.get? i = some c →
      hasFixedPattern c = false ∧ hasErrTok c = false) :
    ∃ q ∈ Config.ERROR_PATTERNS, firstScan cols = some q := by
  induction cols generalizing j with
  | nil => simp at hj
  | cons c cs ih =>
    cases j with
    | zero =>
      simp only [List.get?] at hj
      cases hj
      obtain ⟨q, hqm, hqs⟩ := scanColumn_of_fixed _ hfix
      refine ⟨q, hqm, ?_⟩
      rw [firstScan, hqs]
    | succ j =>
      have hc := hclean 0 (Nat.succ_pos j) c rfl
      have hcn := scanColumn_of_clean _ hc.1 hc.2
      simp only [List.get?] at hj
      obtain ⟨q, hqm, hqs⟩ := ih j hj
        (fun i hi c' hc' => hclean (i + 1) (Nat.succ_lt_succ hi) c' hc')
      refine ⟨q, hqm, ?_⟩
      rw [firstScan, hcn, hqs]

/-- C2 (amended): a classification derived from the warehouse logs is always
returned by `_determine_error_type`, whatever the profile signal; and a log
record containing `CONNECTION_ERROR` in its reason yields classification
`CONNECTION_ERROR` regardless of any profile signal, provided no row's
reason contains the earlier pattern `SUPPLIER_CONFIRMATION_ERROR`. -/
theorem C2_log_over_profile :
    (∀ (df : List LogRow) (cp_info : Option CPInfo) (logs_df : Option (List LogRow)) (e : String),
      detect_error_type df = some e →
      determine_error_type cp_info (detect_error_type df) logs_df = some e) ∧
    (∀ (df : List LogRow) (cp_info : Option CPInfo),
      (∃ r ∈ df, strHasSub (pyUpper r.reason) "CONNECTION_ERROR" = true) →
      (∀ r ∈ df, strHasSub (pyUpper r.reason) "SUPPLIER_CONFIRMATION_ERROR" = false) →
      determine_error_type cp_info (detect_error_type df) (some df) = some "CONNECTION_ERROR") := by
  constructor
  · intro df cp_info logs_df e he
    have ht : optStrTruthy (detect_error_type df) = true := by
      rw [he]
      simpa [optStrTruthy] using detect_error_type_ne_empty df e he
    unfold determine_error_type
    rw [if_pos ht, he]
  · intro df cp_info hconn hnosup
    have hdf : df ≠ [] := by
      rintro rfl
      obtain ⟨r, hr, _⟩ := hconn
      simp at hr
    have hno : (colVals df LogRow.reason).any
        (fun t => strHasSub t "SUPPLIER_CONFIRMATION_ERROR") = false := by
      rw [List.any_eq_false]
      intro t ht
      obtain ⟨r, hr, rfl⟩ := List.mem_map.mp ht
      simpa using hnosup r hr
    have hyes : (colVals df LogRow.reason).any
        (fun t => strHasSub t "CONNECTION_ERROR") = true := by
      rw [List.any_eq_true]
      obtain ⟨r, hr, hc⟩ := hconn
      exact ⟨pyUpper r.reason, List.mem_map.mpr ⟨r, hr, rfl⟩, hc⟩
    have hscan : scanColumn (colVals df LogRow.reason) = some "CONNECTION_ERROR" := by
      have e1 : Config.ERROR_PATTERNS =
          "SUPPLIER_CONFIRMATION_ERROR" ::
            "CONNECTION_ERROR" :: ["TIMEOUT_ERROR", "PROVIDER_ERROR", "BOOKING_FAILED"] := rfl
      unfold scanColumn
      rw [e1, List.find?_cons_of_neg _ (by simp [hno]),
        List.find?_cons_of_pos _ (by simp [hyes])]
    have hdet : detect_error_type df = some "CONNECTION_ERROR" := by
      unfold detect_error_type textCols
      rw [if_neg hdf, firstScan, hscan]
    rw [hdet]
    unfold determine_error_type
    rw [if_pos (by simp [optStrTruthy])]

/-- Witness for C2 (amended): a conflicting profile signal (`TIMEOUT_ERROR`)
is ignored in favour of the log-derived `CONNECTION_ERROR`. -/
theorem C2_log_over_profile_witness :
    determine_error_type (some ⟨false, some "TIMEOUT_ERROR", none⟩)
        (detect_error_type [⟨"CONNECTION_ERROR", "", "", ""⟩])
        (some [⟨"CONNECTION_ERROR", "", "", ""⟩]) = some "CONNECTION_ERROR" :=
  (C2_log_over_profile).2 [⟨"CONNECTION_ERROR", "", "", ""⟩]
    (some ⟨false, some "TIMEOUT_ERROR", none⟩)
    ⟨⟨"CONNECTION_ERROR", "", "", ""⟩, by decide, by decide⟩
    (by decide)

/-- Counterexample for C2 as stated: a log row whose reason contains
`CONNECTION_ERROR` (alongside the earlier pattern
`SUPPLIER_CONFIRMATION_ERROR`) is classified `SUPPLIER_CONFIRMATION_ERROR`,
not `CONNECTION_ERROR`. -/
theorem C2_counterexample :
    strHasSub (pyUpper "got CONNECTION_ERROR then SUPPLIER_CONFIRMATION_ERROR")
        "CONNECTION_ERROR" = true ∧
    determine_error_type (some ⟨true, none, none⟩)
        (detect_error_type [⟨"got CONNECTION_ERROR then SUPPLIER_CONFIRMATION_ERROR", "", "", ""⟩])
        (some [⟨"got CONNECTION_ERROR then SUPPLIER_CONFIRMATION_ERROR", "", "", ""⟩]) =
      some "SUPPLIER_CONFIRMATION_ERROR" ∧
    (some "SUPPLIER_CONFIRMATION_ERROR" : Option String) ≠ some "CONNECTION_ERROR" := by
  refine ⟨by decide, by decide, by decide⟩

/-- C5 (amended): the heuristic fallback is preempted by the fixed patterns
only column by column: whenever some scanned column contains a fixed pattern
and every earlier column in the scan order carries no signal at all (no
fixed pattern and no `ERROR` token), `_detect_error_type` returns a fixed
pattern; a fixed pattern in a later column does not preempt a heuristic
extraction from an earlier column. -/
theorem C5_fixed_beats_heuristic_per_column (df : List LogRow) (j : Nat) (colJ : List String)
    (hj : (textCols df).get? j = some colJ) (hfix : hasFixedPattern colJ = true)
    (hclean : ∀ i, i < j → ∀ c, (textCols df).get? i = some c →
      hasFixedPattern c = false ∧ hasErrTok c = false) :
    ∃ q ∈ Config.ERROR_PATTERNS, detect_error_type df = some q := by
  have hdf : df ≠ [] := by
    rintro rfl
    have hcj : colJ = [] := by
      rcases j with _ | _ | _ | _ | j <;> simp [textCols, colVals, List.get?] at hj <;>
        simp [hj]
    rw [hcj] at hfix
    exact absurd hfix (by decide)
  unfold detect_error_type
  rw [if_neg hdf]
  exact firstScan_fixed _ j colJ hj hfix hclean

/-- Witness for C5 (amended): a fixed pattern in the first scanned column. -/
theorem C5_fixed_beats_heuristic_per_column_witness :
    ∃ q ∈ Config.ERROR_PATTERNS,
      detect_error_type [⟨"TIMEOUT_ERROR while booking", "", "", ""⟩] = some q :=
  C5_fixed_beats_heuristic_per_column [⟨"TIMEOUT_ERROR while booking", "", "", ""⟩] 0
    (colVals [⟨"TIMEOUT_ERROR while booking", "", "", ""⟩] LogRow.reason)
    rfl (by decide) (fun i hi => absurd hi (by omega))

/-- Counterexample for C5 as stated: the reason column triggers the heuristic
(`SOME_ERROR`, not a fixed pattern) even though the detailed-status column of
the same row contains the fixed pattern `CONNECTION_ERROR`. -/
theorem C5_counterexample :
    detect_error_type [⟨"SOME ERROR", "CONNECTION_ERROR", "", ""⟩] = some "SOME_ERROR" ∧
    ("SOME_ERROR" ∈ Config.ERROR_PATTERNS → False) ∧
    hasFixedPattern
      (colVals [⟨"SOME ERROR", "CONNECTION_ERROR", "", ""⟩] LogRow.detailed_status) = true := by
  refine ⟨by decide, by decide, by decide⟩

/-! Helper lemmas about the profile-side error detection. -/

/-- One booking-error step keeps the detected error present. -/
theorem stepError_pres (acc : Option String) (e : BookingError) (h : acc ≠ none) :
    stepError acc e ≠ none := by
  obtain ⟨x, rfl⟩ := Option.ne_none_iff_exists'.mp h
  unfold stepError
  cases hf : Config.ERROR_PATTERNS.find?
      (fun p => strHasSub (pyUpper e.message) p || strHasSub (pyUpper e.code) p) with
  | some p => simp [hf]
  | none => simp [hf]

/-- One booking-error step only ever stores non-empty classifications. -/
theorem stepError_ne_empty (acc : Option String) (e : BookingError)
    (h : ∀ s, acc = some s → s ≠ "") :
    ∀ s, stepError acc e = some s → s ≠ "" := by
  intro s hs
  unfold stepError at hs
  cases hf : Config.ERROR_PATTERNS.find?
      (fun p => strHasSub (pyUpper e.message) p || strHasSub (pyUpper e.code) p) with
  | some p =>
    simp only [hf] at hs
    cases hs
    exact patterns_ne_empty _ (List.mem_of_find?_eq_some hf)
  | none =>
    simp only [hf] at hs
    cases acc with
    | some x =>
      simp only [Option.some.injEq] at hs
      subst hs
      exact h _ rfl
    | none =>
      split_ifs at hs <;> (injection hs with hv; subst hv; decide)

/-- The booking-error loop keeps the detected error present. -/
theorem foldl_stepError_pres (es : List BookingError) (acc : Option String) (h : acc ≠ none) :
    es.foldl stepError acc ≠ none := by
  induction es generalizing acc with
  | nil => exact h
  | cons e es ih => exact ih _ (stepError_pres _ _ h)

/-- The booking-error loop only ever stores non-empty classifications. -/
theorem foldl_stepError_ne_empty (es : List BookingError) (acc : Option String)
    (h : ∀ s, acc = some s → s ≠ "") :
    ∀ s, es.foldl stepError acc = some s → s ≠ "" := by
  induction es generalizing acc with
  | nil => exact h
  | cons e es ih => exact ih _ (stepError_ne_empty _ _ h)

/-- One cancellation-log step keeps the detected error present. -/
theorem stepCanc_pres (acc : Option String) (l : CancLog) (h : acc ≠ none) :
    stepCanc acc l ≠ none := by
  unfold stepCanc
  cases hf : Config.ERROR_PATTERNS.find? (fun p => strHasSub (pyUpper l.message) p) with
  | some p => simp
  | none => simpa using h

/-- One cancellation-log step only ever stores non-empty classifications. -/
theorem stepCanc_ne_empty (acc : Option String) (l : CancLog)
    (h : ∀ s, acc = some s → s ≠ "") :
    ∀ s, stepCanc acc l = some s → s ≠ "" := by
  intro s hs
  unfold stepCanc at hs
  cases hf : Config.ERROR_PATTERNS.find? (fun p => strHasSub (pyUpper l.message) p) with
  | some p =>
    simp only [hf] at hs
    cases hs
    exact patterns_ne_empty _ (List.mem_of_find?_eq_some hf)
  | none =>
    simp only [hf] at hs
    exact h _ hs

/-- The cancellation-log loop keeps the detected error present. -/
theorem foldl_stepCanc_pres (ls : List CancLog) (acc : Option String) (h : acc ≠ none) :
    ls.foldl stepCanc acc ≠ none := by
  induction ls generalizing acc with
  | nil => exact h
  | cons l ls ih => exact ih _ (stepCanc_pres _ _ h)

/-- The cancellation-log loop only ever stores non-empty classifications. -/
theorem foldl_stepCanc_ne_empty (ls : List CancLog) (acc : Option String)
    (h : ∀ s, acc = some s → s ≠ "") :
    ∀ s, ls.foldl stepCanc acc = some s → s ≠ "" := by
  induction ls generalizing acc with
  | nil => exact h
  | cons l ls ih => exact ih _ (stepCanc_ne_empty _ _ h)

/-- The status-derived error is never empty (it ends in `_STATUS`). -/
theorem statusError_ne_empty (bd : BookingData) :
    ∀ s, statusError bd = some s → s ≠ "" := by
  intro s hs
  unfold statusError at hs
  split_ifs at hs with hb
  injection hs with hv
  subst hv
  intro he
  have := congrArg String.data he
  simp [String.data_append] at this

/-- The profile-side detected error, when present, is never empty. -/
theorem detectedFinal_ne_empty (bd : BookingData)
    (clResp : Except Unit (Nat × Option (List CancLog))) :
    ∀ s, detectedFinal bd clResp = some s → s ≠ "" := by
  have hA : ∀ s, detectedAfterErrors bd = some s → s ≠ "" :=
    foldl_stepError_ne_empty _ _ (statusError_ne_empty bd)
  intro s hs
  unfold detectedFinal at hs
  cases hc : get_cancellation_logs clResp with
  | some logs =>
    simp only [hc] at hs
    split_ifs at hs with hl
    · exact hA _ hs
    · exact foldl_stepCanc_ne_empty _ _ hA _ hs
  | none =>
    simp only [hc] at hs
    exact hA _ hs

/-- A bad booking status forces a present detected error all the way
through the loops. -/
theorem detectedFinal_pres (bd : BookingData)
    (clResp : Except Unit (Nat × Option (List CancLog)))
    (h : detectedAfterErrors bd ≠ none) : detectedFinal bd clResp ≠ none := by
  unfold detectedFinal
  cases hc : get_cancellation_logs clResp with
  | some logs =>
    show (if logs = [] then detectedAfterErrors bd
      else logs.foldl stepCanc (detectedAfterErrors bd)) ≠ none
    split_ifs with hl
    · exact h
    · exact foldl_stepCanc_pres _ _ h
  | none => exact h

/-- Whenever `validate_booking_status` reports an invalid booking, it also
reports a non-null, non-empty detected error: `is_valid = False` never comes
with a null error signal. -/
theorem validate_booking_status_invalid (bResp : Except Unit (Nat × Option BookingData))
    (clResp : Except Unit (Nat × Option (List CancLog)))
    (h : (validate_booking_status bResp clResp).1 = false) :
    ∃ e, (validate_booking_status bResp clResp).2.1 = some e ∧ e ≠ "" := by
  unfold validate_booking_status at h ⊢
  cases hb : get_booking_details bResp with
  | none =>
    simp only [hb]
    exact ⟨"BOOKING_NOT_FOUND", rfl, by decide⟩
  | some bd =>
    simp only [hb] at h ⊢
    by_cases hd : detectedFinal bd clResp = none
    · exfalso
      have hsb : statusBad bd = true := by
        rw [hd] at h
        simpa using h
      refine detectedFinal_pres bd clResp (foldl_stepError_pres _ _ ?_) hd
      unfold statusError
      rw [if_pos hsb]
      simp
    · obtain ⟨e, he⟩ := Option.ne_none_iff_exists'.mp hd
      exact ⟨e, by simp [he], detectedFinal_ne_empty bd clResp e he⟩

/-- C3 (amended): a warehouse failure degrades to `(None, None)` — truly "no
signal" — and classification proceeds from the profile alone; a
profile-service failure does not degrade to "no signal": it is converted into
the fallback profile signal `is_valid = False`,
`detected_error_type = 'BOOKING_NOT_FOUND'`, which classification then uses.
All functions involved are total, so classification never aborts and no
`ClassificationError` exists in the code. -/
theorem C3_source_failure_semantics :
    get_booking_logs (Except.error ()) = (none, none) ∧
    (∀ cp_info : Option CPInfo,
      determine_error_type cp_info (get_booking_logs (Except.error ())).2
        (get_booking_logs (Except.error ())).1 = determine_error_type cp_info none none) ∧
    (∀ clResp : Except Unit (Nat × Option (List CancLog)),
      get_comprehensive_booking_info (Except.error ()) clResp =
        { is_valid := false, detected_error_type := some "BOOKING_NOT_FOUND",
          booking_data := none }) :=
  ⟨rfl, fun _ => rfl, fun _ => rfl⟩

/-- Counterexample for C3 as stated: with the profile service unreachable
(and the warehouse healthy, its logs carrying no error signal), the
profile failure does not degrade to "no signal from that source" — it
produces the signal `BOOKING_NOT_FOUND`, which drives the classification;
classification from the warehouse alone would instead give
`PROVIDER_ERROR`. -/
theorem C3_counterexample :
    (get_comprehensive_booking_info (Except.error ()) (Except.error ())).detected_error_type =
      some "BOOKING_NOT_FOUND" ∧
    rowClassification
      { row := ⟨"CR300", "in escalation process", "escalation", "need help"⟩,
        cpB := Except.error (), cpC := Except.error (),
        sfLogs := Except.ok [⟨"all good", "confirmed", "", ""⟩],
        sfRebook := Except.ok [], sfCanc := none,
        saveLogsOk := true, updateOk := true, raisesUnexpected := false } =
      some "BOOKING_NOT_FOUND" ∧
    determine_error_type none none (some [⟨"all good", "confirmed", "", ""⟩]) =
      some "PROVIDER_ERROR" ∧
    (some "BOOKING_NOT_FOUND" : Option String) ≠ none := by
  refine ⟨by decide, by decide, by decide, by decide⟩

/-- C8 (amended): for a row whose profile booking is invalid, the profile
always carries a non-null detected error type, so with no warehouse logs the
pipeline classifies the row as that detected error type — the
`BOOKING_INVALID` branch of `_determine_error_type` is unreachable for
profile info produced by `get_comprehensive_booking_info` — while the
written notes equal the no-logs template. -/
theorem C8_invalid_profile_classification (bResp : Except Unit (Nat × Option BookingData))
    (clResp : Except Unit (Nat × Option (List CancLog)))
    (h : (get_comprehensive_booking_info bResp clResp).is_valid = false) :
    ∃ e, (get_comprehensive_booking_info bResp clResp).detected_error_type = some e ∧
      determine_error_type (some (get_comprehensive_booking_info bResp clResp)) none none =
        some e ∧
      create_status_updates
        (determine_error_type (some (get_comprehensive_booking_info bResp clResp)) none none)
        false "round_1_notes" =
        some "Technical review completed. No logs available for this booking." := by
  obtain ⟨e, he, hne⟩ := validate_booking_status_invalid bResp clResp h
  have hdet : (get_comprehensive_booking_info bResp clResp).detected_error_type = some e := he
  have hcls : determine_error_type (some (get_comprehensive_booking_info bResp clResp))
      none none = some e := by
    unfold determine_error_type
    rw [if_neg (by simp [optStrTruthy])]
    rw [if_pos]
    · simp [cpDetected, hdet]
    · simp [cpTruthy, cpDetected, hdet, optStrTruthy, hne]
  refine ⟨e, hdet, hcls, ?_⟩
  simp [create_status_updates, setKey]

/-- Witness for C8 (amended): a profile booking with status `Failed`. -/
theorem C8_invalid_profile_classification_witness :
    ∃ e, (get_comprehensive_booking_info (Except.ok (200, some ⟨"Failed", []⟩))
        (Except.ok (404, none))).detected_error_type = some e ∧
      determine_error_type (some (get_comprehensive_booking_info
        (Except.ok (200, some ⟨"Failed", []⟩)) (Except.ok (404, none)))) none none = some e ∧
      create_status_updates
        (determine_error_type (some (get_comprehensive_booking_info
          (Except.ok (200, some ⟨"Failed", []⟩)) (Except.ok (404, none)))) none none)
        false "round_1_notes" =
        some "Technical review completed. No logs available for this booking." :=
  C8_invalid_profile_classification (Except.ok (200, some ⟨"Failed", []⟩))
    (Except.ok (404, none)) (by decide)

/-- Counterexample for C8 as stated: a row in the expected initial state, no
warehouse logs, profile booking invalid (status `Failed`): the pipeline
classifies `FAILED_STATUS`, not `BOOKING_INVALID` (the notes do equal the
no-logs template). -/
theorem C8_counterexample :
    validate_row_eligibility ⟨"CR200", "in escalation process", "escalation", "need help"⟩ =
      (true, "Eligible for processing") ∧
    (get_comprehensive_booking_info (Except.ok (200, some ⟨"Failed", []⟩))
        (Except.ok (404, none))).is_valid = false ∧
    rowClassification
      { row := ⟨"CR200", "in escalation process", "escalation", "need help"⟩,
        cpB := Except.ok (200, some ⟨"Failed", []⟩), cpC := Except.ok (404, none),
        sfLogs := Except.ok [], sfRebook := Except.ok [], sfCanc := none,
        saveLogsOk := true, updateOk := true, raisesUnexpected := false } =
      some "FAILED_STATUS" ∧
    (some "FAILED_STATUS" : Option String) ≠ some "BOOKING_INVALID" ∧
    rowUpdates
      { row := ⟨"CR200", "in escalation process", "escalation", "need help"⟩,
        cpB := Except.ok (200, some ⟨"Failed", []⟩), cpC := Except.ok (404, none),
        sfLogs := Except.ok [], sfRebook := Except.ok [], sfCanc := none,
        saveLogsOk := true, updateOk := true, raisesUnexpected := false } "round_1_notes" =
      some "Technical review completed. No logs available for this booking." := by
  refine ⟨by decide, by decide, by decide, by decide, by decide⟩

end DisputeAuto
